import Mathlib

/-
Verification of the navigation coordinator (move_base) and the navfn global
planner wrapper against their natural-language specification.

The definitions below are a shallow embedding of the two source files:
  src/move_base/include/move_base/move_base.h  (the MoveBase class)
  src/navfn/src/navfn_ros.cpp                  (the NavfnROS class)
Doubles are modelled as exact rationals, machine counters as naturals with an
explicit modulus where the width matters, and the external plugin calls
(global planner, local controller, recovery behaviors, tf) as oracle inputs of
the step functions.
-/

/-- Enumeration MoveBaseState of move_base.h (PLANNING, CONTROLLING, CLEARING). -/
inductive MoveBaseState
  | planning
  | controlling
  | clearing
deriving DecidableEq

/-- Enumeration RecoveryTrigger of move_base.h (PLANNING_R, CONTROLLING_R, OSCILLATION_R). -/
inductive RecoveryTrigger
  | planningR
  | controllingR
  | oscillationR
deriving DecidableEq

/-- Terminal outcomes reported through the action server. The source reaches
terminal status only through setSucceeded, setPreempted and setAborted of
SimpleActionServer; a rejected constructor is included so that claims phrased
in terms of a REJECTED outcome are statable against the embedding. -/
inductive Outcome
  | succeeded
  | preempted
  | rejected (reason : String)
  | aborted (reason : String)
deriving DecidableEq

/-- Velocity commands published on cmd_vel. publishZeroVelocity (move_base.h
line 865) publishes the zero twist, modelled by the zero constructor; vel
carries a command computed by the local controller. -/
inductive VelCmd
  | zero
  | vel (vx vy wz : ℚ)
deriving DecidableEq

/-- Occupancy grid of costmap_2d, as far as the two source files read it:
origin, resolution, size in cells and the per-cell cost byte. -/
structure Costmap where
  originX : ℚ
  originY : ℚ
  resolution : ℚ
  sizeX : ℕ
  sizeY : ℕ
  cost : ℕ → ℕ → ℕ

/-- Modelled from the spec: world_to_map of the costmap (the costmap_2d
package, outside src/) is the flooring grid conversion with the costmap
origin and resolution, returning OffMap (none) for points outside the grid. -/
def Costmap.worldToMap (c : Costmap) (wx wy : ℚ) : Option (ℕ × ℕ) :=
  if wx < c.originX ∨ wy < c.originY then
    none
  else
    let mx := (⌊(wx - c.originX) / c.resolution⌋).toNat
    let my := (⌊(wy - c.originY) / c.resolution⌋).toNat
    if mx < c.sizeX ∧ my < c.sizeY then some (mx, my) else none

/-- Costmap2D::setCost: overwrite the cost byte of one cell. -/
def Costmap.setCost (c : Costmap) (mx my : ℕ) (v : ℕ) : Costmap :=
  { c with cost := fun i j => if i = mx ∧ j = my then v else c.cost i j }

/-- costmap_2d::FREE_SPACE. -/
def FREE_SPACE : ℕ := 0

/-- NavfnROS::mapToWorld (navfn_ros.cpp lines 199-202): cell coordinates to
the world point of the cell corner, wx = origin_x + mx * resolution. -/
def NavfnROS.mapToWorld (c : Costmap) (mx my : ℚ) : ℚ × ℚ :=
  (c.originX + mx * c.resolution, c.originY + my * c.resolution)

/-- A stamped 2-D pose as the planner reads it: frame id and position. -/
structure Pose2D where
  frameId : String
  x : ℚ
  y : ℚ

/-- The NavfnROS fields read by makePlan. -/
structure NavfnState where
  initialized : Bool
  globalFrame : String
  costmap : Costmap

/-- Result of NavfnROS::makePlan: the returned Bool, the plan output argument,
the costmap after the call, and whether the potential-field computation
(setNavArr / setCostmap / calcNavFnDijkstra) was reached. -/
structure MakePlanResult where
  success : Bool
  plan : List (ℚ × ℚ)
  costmap : Costmap
  potentialComputed : Bool

/-- NavfnROS::makePlan (navfn_ros.cpp lines 211-373). The NavFn potential
computation and path extraction (outside src/) are abstracted as an oracle
that reads the already-mutated costmap, the start cell, the goal cell and the
tolerance, and returns the extracted plan; the NavFn class copies the costmap
into its internal arrays and never writes back to it. The early returns
follow the source order: initialized check, plan.clear(), goal frame check,
start frame check, worldToMap of the start, clearRobotCell (navfn_ros.cpp
lines 180-188 and 249: setCost of the start cell to FREE_SPACE), worldToMap
of the goal with the tolerance fallback to cell (0, 0). -/
def NavfnROS.makePlan (nav : NavfnState)
    (oracle : Costmap → ℕ × ℕ → ℕ × ℕ → ℚ → List (ℚ × ℚ))
    (start goal : Pose2D) (tolerance : ℚ) (planIn : List (ℚ × ℚ)) :
    MakePlanResult :=
  if nav.initialized = false then
    { success := false, plan := planIn, costmap := nav.costmap, potentialComputed := false }
  else if goal.frameId ≠ nav.globalFrame then
    { success := false, plan := [], costmap := nav.costmap, potentialComputed := false }
  else if start.frameId ≠ nav.globalFrame then
    { success := false, plan := [], costmap := nav.costmap, potentialComputed := false }
  else
    match nav.costmap.worldToMap start.x start.y with
    | none => { success := false, plan := [], costmap := nav.costmap, potentialComputed := false }
    | some (sx, sy) =>
      let cm := nav.costmap.setCost sx sy FREE_SPACE
      match cm.worldToMap goal.x goal.y with
      | none =>
        if tolerance ≤ 0 then
          { success := false, plan := [], costmap := cm, potentialComputed := false }
        else
          let plan := oracle cm (sx, sy) (0, 0) tolerance
          { success := !plan.isEmpty, plan := plan, costmap := cm, potentialComputed := true }
      | some (gx, gy) =>
        let plan := oracle cm (sx, sy) (gx, gy) tolerance
        { success := !plan.isEmpty, plan := plan, costmap := cm, potentialComputed := true }

/-- Configuration fields of MoveBase read by the embedded operations
(move_base.h lines 203-213, loaded in the constructor). -/
structure Config where
  plannerFrequency : ℚ
  plannerPatience : ℚ
  controllerPatience : ℚ
  maxPlanningRetries : ℤ
  oscillationTimeout : ℚ
  oscillationDistance : ℚ
  recoveryBehaviorEnabled : Bool
  numRecoveryBehaviors : ℕ

/-- The mutable MoveBase session fields touched by executeCycle and
planThread: the state machine, the recovery chain cursor, the timing anchors,
the retry counter, the triple-buffer flag and the planner run flag. Oscillation
anchor pose components are stored directly. -/
structure Session where
  state : MoveBaseState
  recoveryIndex : ℕ
  recoveryTrigger : RecoveryTrigger
  lastValidPlan : ℚ
  lastValidControl : ℚ
  lastOscillationReset : ℚ
  oscillationPoseX : ℚ
  oscillationPoseY : ℚ
  planningRetries : ℕ
  newGlobalPlan : Bool
  runPlanner : Bool
deriving DecidableEq

/-- Per-cycle oracle inputs of executeCycle: the clock, the robot pose from
getRobotPose, isCurrent() of the controller costmap, and the local controller
answers (setPlan, isGoalReached, computeVelocityCommands). -/
structure CycleInput where
  now : ℚ
  posX : ℚ
  posY : ℚ
  costmapCurrent : Bool
  setPlanOk : Bool
  goalReached : Bool
  computeVel : Option (ℚ × ℚ × ℚ)
deriving DecidableEq

/-- Observable result of one executeCycle call: the session afterwards, the
cmd_vel messages published during the cycle in order, the terminal outcome
when the cycle returns true (none when it returns false), and instrumentation
recording which external calls were made: whether computeVelocityCommands was
invoked, whether a new plan was handed to setPlan, whether the state switch
was reached, and whether a recovery behavior ran. -/
structure CycleResult where
  session : Session
  published : List VelCmd
  done : Option Outcome
  velocityRequested : Bool
  planHandedToController : Bool
  dispatched : Bool
  recoveryRan : Bool
deriving DecidableEq

/-- MoveBase::resetState (move_base.h lines 1669-1689) without the zero
velocity publication, which call sites append explicitly: run flag cleared,
state PLANNING, recovery index 0, trigger PLANNING_R. -/
def resetStateSession (s : Session) : Session :=
  { s with runPlanner := false, state := .planning,
           recoveryIndex := 0, recoveryTrigger := .planningR }

/-- Squared planar distance. MoveBase::distance (move_base.h line 1243) is
hypot of the coordinate differences; all comparisons in the source are
against the nonnegative oscillation_distance, so they are embedded as the
equivalent comparisons of squares. -/
def distSq (x1 y1 x2 y2 : ℚ) : ℚ := (x1 - x2) * (x1 - x2) + (y1 - y2) * (y1 - y2)

/-- Oscillation displacement check at the top of executeCycle (move_base.h
lines 1273-1282): when the robot moved at least oscillation_distance from the
anchor, refresh the anchor and the oscillation clock, and zero the recovery
index when the previous recovery was oscillation-triggered. -/
def oscillationCheck (cfg : Config) (inp : CycleInput) (s : Session) : Session :=
  if cfg.oscillationDistance * cfg.oscillationDistance ≤
      distSq inp.posX inp.posY s.oscillationPoseX s.oscillationPoseY then
    { s with lastOscillationReset := inp.now,
             oscillationPoseX := inp.posX,
             oscillationPoseY := inp.posY,
             recoveryIndex :=
               if s.recoveryTrigger = .oscillationR then 0 else s.recoveryIndex }
  else
    s

/-- Result of the plan-ingest step: the session, the messages published in
the step, the terminal outcome when setPlan fails, and whether a plan was
handed to the controller. -/
structure IngestResult where
  session : Session
  published : List VelCmd
  done : Option Outcome
  handed : Bool

/-- Plan ingest of executeCycle (move_base.h lines 1296-1335): when the
planner thread has flagged a new plan, clear the flag, swap the buffers and
hand the plan to the local controller; on setPlan failure reset the session
(publishing zero) and abort; on success zero the recovery index when the
current trigger is PLANNING_R. -/
def planIngest (inp : CycleInput) (s : Session) : IngestResult :=
  if s.newGlobalPlan then
    let s1 := { s with newGlobalPlan := false }
    if inp.setPlanOk then
      { session :=
          { s1 with recoveryIndex :=
              if s1.recoveryTrigger = .planningR then 0 else s1.recoveryIndex },
        published := [], done := none, handed := true }
    else
      { session := resetStateSession s1,
        published := [.zero],
        done := some (.aborted "Failed to pass global plan to the controller."),
        handed := true }
  else
    { session := s, published := [], done := none, handed := false }

/-- Result of a state-dispatch step of executeCycle. -/
structure DispatchResult where
  session : Session
  published : List VelCmd
  done : Option Outcome
  velocityRequested : Bool
  recoveryRan : Bool

/-- The computeVelocityCommands block of the CONTROLLING case (move_base.h
lines 1384-1430): a valid command is published and refreshes
last_valid_control (zeroing the recovery index when the trigger is
CONTROLLING_R); otherwise zero is published and the machine either enters
CLEARING with trigger CONTROLLING_R (patience exhausted) or goes back to
PLANNING with fresh plan anchors. -/
def velocityStep (cfg : Config) (inp : CycleInput) (s : Session) :
    Session × List VelCmd :=
  match inp.computeVel with
  | some (vx, vy, wz) =>
    ({ s with lastValidControl := inp.now,
              recoveryIndex :=
                if s.recoveryTrigger = .controllingR then 0 else s.recoveryIndex },
     [.vel vx vy wz])
  | none =>
    if s.lastValidControl + cfg.controllerPatience < inp.now then
      ({ s with state := .clearing, recoveryTrigger := .controllingR }, [.zero])
    else
      ({ s with lastValidPlan := inp.now, planningRetries := 0,
                state := .planning, runPlanner := true }, [.zero])

/-- String arguments of setAborted in the exhausted-recoveries branch of the
CLEARING case (move_base.h lines 1478-1492), keyed by the recovery trigger. -/
def abortReason : RecoveryTrigger → String
  | .controllingR => "Failed to find a valid control. Even after executing recovery behaviors."
  | .planningR => "Failed to find a valid plan. Even after executing recovery behaviors."
  | .oscillationR => "Robot is oscillating. Even after executing recovery behaviors."

/-- The CONTROLLING case of executeCycle (move_base.h lines 1354-1432). The
goal-reached test comes first and terminates with SUCCEEDED through
resetState. The oscillation-timeout test follows; when it fires, zero
velocity is published and the machine is put into CLEARING with trigger
OSCILLATION_R, and - the source has no else here - control falls through to
the computeVelocityCommands block in the same cycle. -/
def controllingDispatch (cfg : Config) (inp : CycleInput) (s : Session) :
    DispatchResult :=
  if inp.goalReached then
    { session := resetStateSession s, published := [.zero],
      done := some .succeeded, velocityRequested := false, recoveryRan := false }
  else if 0 < cfg.oscillationTimeout ∧
      s.lastOscillationReset + cfg.oscillationTimeout < inp.now then
    let r := velocityStep cfg inp
      { s with state := .clearing, recoveryTrigger := .oscillationR }
    { session := r.1, published := .zero :: r.2, done := none,
      velocityRequested := true, recoveryRan := false }
  else
    let r := velocityStep cfg inp s
    { session := r.1, published := r.2, done := none,
      velocityRequested := true, recoveryRan := false }

/-- The CLEARING case of executeCycle (move_base.h lines 1436-1496): when
recovery is enabled and the index is strictly below the chain length, run the
behavior at the index, refresh the oscillation and plan anchors, go back to
PLANNING and increment the index; otherwise clear the run flag, abort with
the reason of the current trigger and reset the session (publishing zero). -/
def clearingDispatch (cfg : Config) (inp : CycleInput) (s : Session) :
    DispatchResult :=
  if cfg.recoveryBehaviorEnabled = true ∧ s.recoveryIndex < cfg.numRecoveryBehaviors then
    { session :=
        { s with lastOscillationReset := inp.now, lastValidPlan := inp.now,
                 planningRetries := 0, state := .planning,
                 recoveryIndex := s.recoveryIndex + 1 },
      published := [], done := none, velocityRequested := false, recoveryRan := true }
  else
    { session := resetStateSession { s with runPlanner := false },
      published := [.zero],
      done := some (.aborted (abortReason s.recoveryTrigger)),
      velocityRequested := false, recoveryRan := false }

/-- The PLANNING case of executeCycle (move_base.h lines 1344-1351): set the
run flag and signal the planner condition variable. -/
def planningDispatch (s : Session) : DispatchResult :=
  { session := { s with runPlanner := true }, published := [],
    done := none, velocityRequested := false, recoveryRan := false }

/-- MoveBase::executeCycle (move_base.h lines 1251-1511) as one step of the
control loop: oscillation displacement check, the isCurrent() safety gate of
the controller costmap (publish zero and return false when stale), plan
ingest, then the state switch. Feedback publication has no observable effect
on the modelled state and is omitted. -/
def executeCycle (cfg : Config) (inp : CycleInput) (s : Session) : CycleResult :=
  let s1 := oscillationCheck cfg inp s
  if inp.costmapCurrent = false then
    { session := s1, published := [.zero], done := none,
      velocityRequested := false, planHandedToController := false,
      dispatched := false, recoveryRan := false }
  else
    let ing := planIngest inp s1
    match ing.done with
    | some o =>
      { session := ing.session, published := ing.published, done := some o,
        velocityRequested := false, planHandedToController := ing.handed,
        dispatched := false, recoveryRan := false }
    | none =>
      let d :=
        match ing.session.state with
        | .planning => planningDispatch ing.session
        | .controlling => controllingDispatch cfg inp ing.session
        | .clearing => clearingDispatch cfg inp ing.session
      { session := d.session, published := ing.published ++ d.published,
        done := d.done, velocityRequested := d.velocityRequested,
        planHandedToController := ing.handed, dispatched := true,
        recoveryRan := d.recoveryRan }

/-- Conversion of the int32 parameter max_planning_retries to uint32 as the
C++ comparison planning_retries_ > uint32_t(max_planning_retries_) performs
it (move_base.h line 1021): reduction modulo 2^32. -/
def toUint32 (i : ℤ) : ℕ := (i % 4294967296).toNat

/-- One iteration of MoveBase::planThread after the wait (move_base.h lines
966-1047), with the outcome of makePlan supplied as the oracle input gotPlan.
On success (lines 981-1003): publish the plan to the triple buffer, refresh
last_valid_plan, zero the retry counter, set the new-plan flag, move to
CONTROLLING while the run flag holds, and clear the run flag when
planner_frequency is nonpositive. On failure in state PLANNING (lines
1004-1031): increment the retry counter modulo 2^32 and, when the run flag
holds and the patience window is exceeded or the incremented counter exceeds
uint32(max_planning_retries), enter CLEARING with trigger PLANNING_R, clear
the run flag and publish zero velocity. -/
def planThreadIteration (cfg : Config) (now : ℚ) (gotPlan : Bool) (s : Session) :
    Session × List VelCmd :=
  if gotPlan then
    let s1 := { s with lastValidPlan := now, planningRetries := 0, newGlobalPlan := true }
    let s2 := if s1.runPlanner then { s1 with state := .controlling } else s1
    let s3 := if cfg.plannerFrequency ≤ 0 then { s2 with runPlanner := false } else s2
    (s3, [])
  else if s.state = .planning then
    let retries := (s.planningRetries + 1) % 4294967296
    let s1 := { s with planningRetries := retries }
    if s1.runPlanner = true ∧
        (s1.lastValidPlan + cfg.plannerPatience < now ∨ toUint32 cfg.maxPlanningRetries < retries) then
      ({ s1 with state := .clearing, runPlanner := false, recoveryTrigger := .planningR },
       [.zero])
    else
      (s1, [])
  else
    (s, [])

/-- A goal quaternion. Rationals carry no NaN or infinity, so the result of
std::isfinite on the four components is carried as the finite flag. -/
structure GoalQuat where
  x : ℚ
  y : ℚ
  z : ℚ
  w : ℚ
  finite : Bool
deriving DecidableEq

/-- length2 of tf2 quaternions: the squared norm. -/
def GoalQuat.length2 (q : GoalQuat) : ℚ :=
  q.x * q.x + q.y * q.y + q.z * q.z + q.w * q.w

/-- Dot product of the world z-axis with the image of the world z-axis under
the rotation of the normalized quaternion. The source normalizes and rotates
up = (0, 0, 1) by axis and angle (move_base.h lines 898-902); for a unit
quaternion that rotation sends (0, 0, 1) to
(2(xz + wy), 2(yz - wx), 1 - 2(x^2 + y^2)), so after dividing by the squared
norm the dot product is 1 - 2(x^2 + y^2) / length2. -/
def GoalQuat.rotatedZdotZ (q : GoalQuat) : ℚ :=
  1 - 2 * (q.x * q.x + q.y * q.y) / q.length2

/-- MoveBase::isQuaternionValid (move_base.h lines 875-911): reject when a
component is not finite, when the squared norm is below 1e-6, or when the
rotated z-axis departs from vertical by more than 1e-3 in the dot product. -/
def isQuaternionValid (q : GoalQuat) : Bool :=
  if q.finite = false then false
  else if q.length2 < 1 / 1000000 then false
  else if 1 / 1000 < |q.rotatedZdotZ - 1| then false
  else true

/-- The identity quaternion (0, 0, 0, 1). -/
def identityQuat : GoalQuat := { x := 0, y := 0, z := 0, w := 1, finite := true }

/-- The all-zero quaternion. -/
def zeroQuat : GoalQuat := { x := 0, y := 0, z := 0, w := 0, finite := true }

/-- Observable prefix of MoveBase::executeCb: terminal outcome when the entry
check fails, the cmd_vel messages published before the control loop, and
whether the planner was started (runPlanner set and the condition variable
notified). -/
structure ExecuteEntryResult where
  outcome : Option Outcome
  published : List VelCmd
  planRequested : Bool
deriving DecidableEq

/-- Entry of MoveBase::executeCb (move_base.h lines 1053-1094): an invalid
goal quaternion aborts immediately - setAborted with the invalid-quaternion
message - before publishZeroVelocity and before the planner goal is installed
and the planner woken; with a valid quaternion the callback publishes zero
once and starts the planner. -/
def executeCbEntry (goalQuat : GoalQuat) : ExecuteEntryResult :=
  if isQuaternionValid goalQuat = false then
    { outcome := some (.aborted "Aborting on goal because it was sent with an invalid quaternion"),
      published := [], planRequested := false }
  else
    { outcome := none, published := [.zero], planRequested := true }

/-- The 1e-9 slack used by the skip tests of the planService search loops. -/
def searchEps : ℚ := 1 / 1000000000

/-- Step of the outward goal search of MoveBase::planService (move_base.h
lines 724-727): three times the costmap resolution, lowered to the requested
tolerance when the tolerance is positive and smaller. -/
def searchIncrement (res tol : ℚ) : ℚ :=
  if 0 < tol ∧ tol < res * 3 then tol else res * 3

/-- Modelled from the spec: the spec describes the outward search as stepped
by max(3 * resolution, tolerance); kept beside searchIncrement for
comparison. -/
def specSearchIncrement (res tol : ℚ) : ℚ := max (res * 3) tol

/-- One candidate of the outward search: the current outer layer max_offset,
the x and y offsets and the sign multipliers. -/
structure SearchAttempt where
  layer : ℚ
  xOff : ℚ
  yOff : ℚ
  xMult : ℚ
  yMult : ℚ
deriving DecidableEq

/-- The goal pose tried for a search attempt (move_base.h lines 755-756). -/
def attemptGoal (goal : ℚ × ℚ) (a : SearchAttempt) : ℚ × ℚ :=
  (goal.1 + a.xOff * a.xMult, goal.2 + a.yOff * a.yMult)

/-- The attempts generated inside one outer layer max_offset = m * inc of the
planService search (move_base.h lines 730-779), in loop order: y_offset then
x_offset ascend from 0 to max_offset in steps of inc (indices k and i, so
offset = index * inc exactly where the source accumulates floats), candidates
with both offsets strictly inside the layer by more than 1e-9 are skipped,
and each surviving offset pair is expanded over the sign multipliers -1 and 1
with the duplicate sign of a zero offset dropped. -/
def layerAttempts (inc : ℚ) (m : ℕ) : List SearchAttempt :=
  (List.range (m + 1)).flatMap (fun k =>
    (List.range (m + 1)).flatMap (fun i =>
      if (i : ℚ) * inc < (m : ℚ) * inc - searchEps ∧
          (k : ℚ) * inc < (m : ℚ) * inc - searchEps then
        []
      else
        ([-1, 1] : List ℚ).flatMap (fun ym =>
          if (k : ℚ) * inc < searchEps ∧ ym < -1 + searchEps then
            []
          else
            ([-1, 1] : List ℚ).filterMap (fun xm =>
              if (i : ℚ) * inc < searchEps ∧ xm < -1 + searchEps then
                none
              else
                some { layer := (m : ℚ) * inc, xOff := (i : ℚ) * inc,
                       yOff := (k : ℚ) * inc, xMult := xm, yMult := ym }))))

/-- All attempts of the outward search in order (move_base.h line 728): the
outer layer max_offset ranges over inc, 2 * inc, ... while it stays at or
below the tolerance. -/
def searchAttempts (res tol : ℚ) : List SearchAttempt :=
  let inc := searchIncrement res tol
  (List.range (⌊tol / inc⌋).toNat).flatMap (fun j => layerAttempts inc (j + 1))

/-- The outward search of planService: try the candidate goals in loop order
against the external global planner (the oracle; none models a makePlan
returning false) and stop at the first nonempty plan, returning the candidate
goal together with its plan. -/
def planServiceSearch (oracle : ℚ × ℚ → Option (List (ℚ × ℚ)))
    (goal : ℚ × ℚ) (res tol : ℚ) : Option ((ℚ × ℚ) × List (ℚ × ℚ)) :=
  (searchAttempts res tol).findSome? (fun a =>
    match oracle (attemptGoal goal a) with
    | some pl => if pl.isEmpty then none else some (attemptGoal goal a, pl)
    | none => none)

/-- MoveBase::planService (move_base.h lines 674-795) after the start pose
and window clearing: plan to the exact goal first, otherwise run the outward
search; when make_plan_add_unreachable_goal is set the original goal is
appended to a plan found by the search (move_base.h lines 763-768). An empty
list models the service responding with an empty plan. -/
def planService (oracle : ℚ × ℚ → Option (List (ℚ × ℚ))) (goal : ℚ × ℚ)
    (res tol : ℚ) (addUnreachableGoal : Bool) : List (ℚ × ℚ) :=
  match oracle goal with
  | some pl =>
    if pl.isEmpty then
      match planServiceSearch oracle goal res tol with
      | some (_, found) => if addUnreachableGoal then found ++ [goal] else found
      | none => []
    else pl
  | none =>
    match planServiceSearch oracle goal res tol with
    | some (_, found) => if addUnreachableGoal then found ++ [goal] else found
    | none => []

/-- Costmap used by the concrete round-trip evaluations: origin (0, 0),
resolution 1, 10 by 10 cells, all cells free. -/
def rtCostmap : Costmap :=
  { originX := 0, originY := 0, resolution := 1, sizeX := 10, sizeY := 10,
    cost := fun _ _ => 0 }

/-- Claim C7, counterexample: the world point x = 9/10 in a resolution-1 map
with origin 0 maps to cell 0, and NavfnROS::mapToWorld returns the cell
corner 0, which is 9/10 away from the original point - more than half a cell
(1/2) - so world_to_map followed by the mapToWorld of this source is not the
identity up to half a cell. -/
theorem claim7_halfcell_counterexample :
    rtCostmap.worldToMap (9/10) 0 = some (0, 0) ∧
    NavfnROS.mapToWorld rtCostmap 0 0 = (0, 0) ∧
    ¬(|(9/10 : ℚ) - (NavfnROS.mapToWorld rtCostmap 0 0).1| ≤ rtCostmap.resolution / 2) := by
  refine ⟨?_, ?_, ?_⟩ <;>
    norm_num [Costmap.worldToMap, NavfnROS.mapToWorld, rtCostmap, abs_of_nonneg]

/-- Claim C7 as amended: for every world point inside the map, world_to_map
followed by NavfnROS::mapToWorld returns the lower corner of the containing
cell, so each coordinate of the round trip is within one full cell (strictly
less than the resolution, not resolution / 2) below the original point. -/
theorem claim7_roundtrip_within_one_cell (c : Costmap) (wx wy : ℚ) (mx my : ℕ)
    (hres : 0 < c.resolution) (h : c.worldToMap wx wy = some (mx, my)) :
    0 ≤ wx - (NavfnROS.mapToWorld c (mx : ℚ) (my : ℚ)).1 ∧
    wx - (NavfnROS.mapToWorld c (mx : ℚ) (my : ℚ)).1 < c.resolution ∧
    0 ≤ wy - (NavfnROS.mapToWorld c (mx : ℚ) (my : ℚ)).2 ∧
    wy - (NavfnROS.mapToWorld c (mx : ℚ) (my : ℚ)).2 < c.resolution := by
  simp only [Costmap.worldToMap] at h
  split at h
  · exact absurd h (by simp)
  · rename_i hin
    push_neg at hin
    obtain ⟨hx, hy⟩ := hin
    split at h
    swap
    · exact absurd h (by simp)
    injection h with h
    injection h with h1 h2
    subst h1; subst h2
    have hxnn : 0 ≤ (wx - c.originX) / c.resolution := div_nonneg (by linarith) hres.le
    have hynn : 0 ≤ (wy - c.originY) / c.resolution := div_nonneg (by linarith) hres.le
    have hfx : (0:ℤ) ≤ ⌊(wx - c.originX) / c.resolution⌋ := Int.floor_nonneg.mpr hxnn
    have hfy : (0:ℤ) ≤ ⌊(wy - c.originY) / c.resolution⌋ := Int.floor_nonneg.mpr hynn
    have hcx : ((⌊(wx - c.originX) / c.resolution⌋.toNat : ℕ) : ℚ)
        = ((⌊(wx - c.originX) / c.resolution⌋ : ℤ) : ℚ) := by
      exact_mod_cast Int.toNat_of_nonneg hfx
    have hcy : ((⌊(wy - c.originY) / c.resolution⌋.toNat : ℕ) : ℚ)
        = ((⌊(wy - c.originY) / c.resolution⌋ : ℤ) : ℚ) := by
      exact_mod_cast Int.toNat_of_nonneg hfy
    have hflx : ((⌊(wx - c.originX) / c.resolution⌋ : ℤ) : ℚ) ≤ (wx - c.originX) / c.resolution :=
      Int.floor_le _
    have hflx2 : (wx - c.originX) / c.resolution
        < ((⌊(wx - c.originX) / c.resolution⌋ : ℤ) : ℚ) + 1 :=
      Int.lt_floor_add_one _
    have hfly : ((⌊(wy - c.originY) / c.resolution⌋ : ℤ) : ℚ) ≤ (wy - c.originY) / c.resolution :=
      Int.floor_le _
    have hfly2 : (wy - c.originY) / c.resolution
        < ((⌊(wy - c.originY) / c.resolution⌋ : ℤ) : ℚ) + 1 :=
      Int.lt_floor_add_one _
    have htx : wx - c.originX = ((wx - c.originX) / c.resolution) * c.resolution :=
      (div_mul_cancel₀ _ (ne_of_gt hres)).symm
    have hty : wy - c.originY = ((wy - c.originY) / c.resolution) * c.resolution :=
      (div_mul_cancel₀ _ (ne_of_gt hres)).symm
    simp only [NavfnROS.mapToWorld]
    rw [hcx, hcy]
    refine ⟨?_, ?_, ?_, ?_⟩
    · nlinarith [mul_le_mul_of_nonneg_right hflx hres.le]
    · nlinarith [mul_lt_mul_of_pos_right hflx2 hres]
    · nlinarith [mul_le_mul_of_nonneg_right hfly hres.le]
    · nlinarith [mul_lt_mul_of_pos_right hfly2 hres]

/-- Witness for claim C7: the round-trip bound instantiated at the concrete
map and the point x = 3/2, y = 1/2, which lands in cell (1, 0). -/
theorem claim7_roundtrip_witness :
    0 < rtCostmap.resolution ∧
    rtCostmap.worldToMap (3/2) (1/2) = some (1, 0) ∧
    (0 ≤ (3/2 : ℚ) - (NavfnROS.mapToWorld rtCostmap (1 : ℚ) (0 : ℚ)).1 ∧
     (3/2 : ℚ) - (NavfnROS.mapToWorld rtCostmap (1 : ℚ) (0 : ℚ)).1 < rtCostmap.resolution ∧
     0 ≤ (1/2 : ℚ) - (NavfnROS.mapToWorld rtCostmap (1 : ℚ) (0 : ℚ)).2 ∧
     (1/2 : ℚ) - (NavfnROS.mapToWorld rtCostmap (1 : ℚ) (0 : ℚ)).2 < rtCostmap.resolution) := by
  have hres : 0 < rtCostmap.resolution := by norm_num [rtCostmap]
  have h : rtCostmap.worldToMap (3/2) (1/2) = some (1, 0) := by
    norm_num [Costmap.worldToMap, rtCostmap]
  exact ⟨hres, h, claim7_roundtrip_within_one_cell rtCostmap (3/2) (1/2) 1 0 hres h⟩

/-- Claim C9: NavfnROS::makePlan performs no frame transformation - whenever
the goal frame or the start frame differs from the planner global frame it
returns false with an empty plan, the costmap untouched and the potential
field not computed. -/
theorem claim9_frame_mismatch_fails_early (nav : NavfnState)
    (oracle : Costmap → ℕ × ℕ → ℕ × ℕ → ℚ → List (ℚ × ℚ))
    (start goal : Pose2D) (tol : ℚ) (planIn : List (ℚ × ℚ))
    (hinit : nav.initialized = true)
    (hmism : goal.frameId ≠ nav.globalFrame ∨ start.frameId ≠ nav.globalFrame) :
    NavfnROS.makePlan nav oracle start goal tol planIn =
      { success := false, plan := [], costmap := nav.costmap,
        potentialComputed := false } := by
  rcases hmism with hg | hs
  · simp [NavfnROS.makePlan, hinit, hg]
  · by_cases hg2 : goal.frameId = nav.globalFrame
    · simp [NavfnROS.makePlan, hinit, hg2, hs]
    · simp [NavfnROS.makePlan, hinit, hg2]

/-- Witness for claim C9: a concrete request whose goal frame is odom while
the planner frame is map. -/
theorem claim9_frame_mismatch_witness :
    { initialized := true, globalFrame := "map", costmap := rtCostmap : NavfnState }.initialized
        = true ∧
    ({ frameId := "odom", x := 1, y := 1 : Pose2D }.frameId ≠ "map" ∨
     { frameId := "map", x := 0, y := 0 : Pose2D }.frameId ≠ "map") ∧
    NavfnROS.makePlan { initialized := true, globalFrame := "map", costmap := rtCostmap }
        (fun _ _ _ _ => []) { frameId := "map", x := 0, y := 0 }
        { frameId := "odom", x := 1, y := 1 } 0 [] =
      { success := false, plan := [], costmap := rtCostmap, potentialComputed := false } := by
  refine ⟨rfl, Or.inl (by decide), ?_⟩
  exact claim9_frame_mismatch_fails_early _ _ _ _ _ _ rfl (Or.inl (by decide))

/-- Claim C10: every entry of NavfnROS::makePlan that passes the initialized
check, the frame checks and the start conversion mutates the costmap - the
start cell is forced to FREE_SPACE by clearRobotCell before any potential is
computed, so when that cell held any other cost the call is not read-only on
the costmap. -/
theorem claim10_makePlan_clears_start_cell (nav : NavfnState)
    (oracle : Costmap → ℕ × ℕ → ℕ × ℕ → ℚ → List (ℚ × ℚ))
    (start goal : Pose2D) (tol : ℚ) (planIn : List (ℚ × ℚ)) (sx sy : ℕ)
    (hinit : nav.initialized = true)
    (hg : goal.frameId = nav.globalFrame) (hs : start.frameId = nav.globalFrame)
    (hmap : nav.costmap.worldToMap start.x start.y = some (sx, sy)) :
    (NavfnROS.makePlan nav oracle start goal tol planIn).costmap =
      nav.costmap.setCost sx sy FREE_SPACE ∧
    (NavfnROS.makePlan nav oracle start goal tol planIn).costmap.cost sx sy = FREE_SPACE ∧
    (nav.costmap.cost sx sy ≠ FREE_SPACE →
      (NavfnROS.makePlan nav oracle start goal tol planIn).costmap ≠ nav.costmap) := by
  have hcm : (NavfnROS.makePlan nav oracle start goal tol planIn).costmap =
      nav.costmap.setCost sx sy FREE_SPACE := by
    rcases hgm : (nav.costmap.setCost sx sy FREE_SPACE).worldToMap goal.x goal.y with _ | ⟨gx, gy⟩
    · by_cases ht : tol ≤ 0 <;> simp [NavfnROS.makePlan, hinit, hg, hs, hmap, hgm, ht]
    · simp [NavfnROS.makePlan, hinit, hg, hs, hmap, hgm]
  have hcost : (nav.costmap.setCost sx sy FREE_SPACE).cost sx sy = FREE_SPACE := by
    simp [Costmap.setCost]
  refine ⟨hcm, by rw [hcm]; exact hcost, ?_⟩
  intro hne heq
  apply hne
  rw [← heq, hcm, hcost]

/-- Costmap for the claim C10 witness: every cell at lethal cost 254. -/
def lethalCostmap : Costmap :=
  { originX := 0, originY := 0, resolution := 1, sizeX := 10, sizeY := 10,
    cost := fun _ _ => 254 }

/-- Witness for claim C10: a concrete planning query over the lethal costmap
frees the start cell, so the query visibly mutates the costmap. -/
theorem claim10_witness :
    lethalCostmap.worldToMap 0 0 = some (0, 0) ∧
    lethalCostmap.cost 0 0 ≠ FREE_SPACE ∧
    (NavfnROS.makePlan { initialized := true, globalFrame := "map", costmap := lethalCostmap }
        (fun _ _ _ _ => []) { frameId := "map", x := 0, y := 0 }
        { frameId := "map", x := 2, y := 2 } 0 []).costmap.cost 0 0 = FREE_SPACE ∧
    (NavfnROS.makePlan { initialized := true, globalFrame := "map", costmap := lethalCostmap }
        (fun _ _ _ _ => []) { frameId := "map", x := 0, y := 0 }
        { frameId := "map", x := 2, y := 2 } 0 []).costmap ≠ lethalCostmap := by
  have hmap : lethalCostmap.worldToMap 0 0 = some (0, 0) := by
    norm_num [Costmap.worldToMap, lethalCostmap]
  have hc := claim10_makePlan_clears_start_cell
    { initialized := true, globalFrame := "map", costmap := lethalCostmap }
    (fun _ _ _ _ => []) { frameId := "map", x := 0, y := 0 }
    { frameId := "map", x := 2, y := 2 } 0 [] 0 0 rfl rfl rfl hmap
  exact ⟨hmap, by norm_num [lethalCostmap, FREE_SPACE], hc.2.1,
    hc.2.2 (by norm_num [lethalCostmap, FREE_SPACE])⟩

/-- Claim C3, counterexample: the all-zero quaternion goal terminates
immediately with setAborted - the ABORTED outcome carrying the
invalid-quaternion message - not with a REJECTED outcome as the claim states;
no plan is requested and no velocity is published. -/
theorem claim3_rejected_counterexample :
    (executeCbEntry zeroQuat).outcome =
      some (.aborted "Aborting on goal because it was sent with an invalid quaternion") ∧
    (executeCbEntry zeroQuat).outcome ≠ some (.rejected "invalid quaternion") ∧
    (executeCbEntry zeroQuat).published = [] ∧
    (executeCbEntry zeroQuat).planRequested = false := by
  have hz : isQuaternionValid zeroQuat = false := by
    norm_num [isQuaternionValid, zeroQuat, GoalQuat.length2]
  refine ⟨?_, ?_, ?_, ?_⟩ <;> simp [executeCbEntry, hz]

/-- Claim C3 as amended: a goal quaternion that is not finite, or has squared
norm below 1e-6, or whose normalized rotation moves the z-axis dot product
away from 1 by more than 1e-3 - exactly the failure cases of
isQuaternionValid - makes executeCb terminate immediately with ABORTED (not
REJECTED) and the invalid-quaternion message, requesting no plan and
publishing no velocity; the validator accepts the identity quaternion and
rejects the zero quaternion. -/
theorem claim3_invalid_quaternion_aborts (q : GoalQuat)
    (hinv : isQuaternionValid q = false) :
    executeCbEntry q =
      { outcome := some (.aborted "Aborting on goal because it was sent with an invalid quaternion"),
        published := [], planRequested := false } ∧
    (isQuaternionValid q = false ↔
      (q.finite = false ∨ q.length2 < 1 / 1000000 ∨ 1 / 1000 < |q.rotatedZdotZ - 1|)) ∧
    isQuaternionValid identityQuat = true ∧
    isQuaternionValid zeroQuat = false := by
  refine ⟨by simp [executeCbEntry, hinv], ?_, ?_, ?_⟩
  · unfold isQuaternionValid
    split_ifs with h1 h2 h3 <;> simp_all
  · norm_num [isQuaternionValid, identityQuat, GoalQuat.length2, GoalQuat.rotatedZdotZ]
  · norm_num [isQuaternionValid, zeroQuat, GoalQuat.length2]

/-- Witness for claim C3: the amended theorem applied to the zero quaternion. -/
theorem claim3_witness :
    isQuaternionValid zeroQuat = false ∧
    executeCbEntry zeroQuat =
      { outcome := some (.aborted "Aborting on goal because it was sent with an invalid quaternion"),
        published := [], planRequested := false } := by
  have hz : isQuaternionValid zeroQuat = false := by
    norm_num [isQuaternionValid, zeroQuat, GoalQuat.length2]
  exact ⟨hz, (claim3_invalid_quaternion_aborts zeroQuat hz).1⟩

/-- The oscillation displacement check never changes the machine state. -/
theorem oscillationCheck_state (cfg : Config) (inp : CycleInput) (s : Session) :
    (oscillationCheck cfg inp s).state = s.state := by
  unfold oscillationCheck; split <;> rfl

/-- The oscillation displacement check never changes the recovery trigger. -/
theorem oscillationCheck_trigger (cfg : Config) (inp : CycleInput) (s : Session) :
    (oscillationCheck cfg inp s).recoveryTrigger = s.recoveryTrigger := by
  unfold oscillationCheck; split <;> rfl

/-- The oscillation displacement check never touches the new-plan flag. -/
theorem oscillationCheck_newGlobalPlan (cfg : Config) (inp : CycleInput) (s : Session) :
    (oscillationCheck cfg inp s).newGlobalPlan = s.newGlobalPlan := by
  unfold oscillationCheck; split <;> rfl

/-- The oscillation displacement check never touches the planner run flag. -/
theorem oscillationCheck_runPlanner (cfg : Config) (inp : CycleInput) (s : Session) :
    (oscillationCheck cfg inp s).runPlanner = s.runPlanner := by
  unfold oscillationCheck; split <;> rfl

/-- The oscillation displacement check leaves the recovery index unchanged or
zeroes it (the latter only when the previous trigger was OSCILLATION_R). -/
theorem oscillationCheck_recoveryIndex (cfg : Config) (inp : CycleInput) (s : Session) :
    (oscillationCheck cfg inp s).recoveryIndex = s.recoveryIndex ∨
    ((oscillationCheck cfg inp s).recoveryIndex = 0 ∧ s.recoveryTrigger = .oscillationR) := by
  unfold oscillationCheck
  split
  · by_cases h : s.recoveryTrigger = .oscillationR
    · exact Or.inr ⟨by simp [h], h⟩
    · exact Or.inl (by simp [h])
  · exact Or.inl rfl

/-- With a fresh costmap and no pending plan, executeCycle reduces to the
oscillation check followed by the state dispatch. -/
theorem executeCycle_eq_dispatch (cfg : Config) (inp : CycleInput) (s : Session)
    (hcur : inp.costmapCurrent = true) (hplan : s.newGlobalPlan = false) :
    executeCycle cfg inp s =
      (let s1 := oscillationCheck cfg inp s
       let d :=
         match s1.state with
         | .planning => planningDispatch s1
         | .controlling => controllingDispatch cfg inp s1
         | .clearing => clearingDispatch cfg inp s1
       { session := d.session, published := d.published, done := d.done,
         velocityRequested := d.velocityRequested, planHandedToController := false,
         dispatched := true, recoveryRan := d.recoveryRan }) := by
  have h1 : (oscillationCheck cfg inp s).newGlobalPlan = false := by
    rw [oscillationCheck_newGlobalPlan]; exact hplan
  simp only [executeCycle, hcur, planIngest, h1]
  simp

/-- Configuration for the concrete cycle evaluations: oscillation timeout 3 s,
oscillation distance 1/2 m, controller patience 15 s, two recovery behaviors. -/
def cfgOsc : Config :=
  { plannerFrequency := 0, plannerPatience := 5, controllerPatience := 15,
    maxPlanningRetries := -1, oscillationTimeout := 3, oscillationDistance := 1/2,
    recoveryBehaviorEnabled := true, numRecoveryBehaviors := 2 }

/-- Session in CONTROLLING with all anchors at time 0 and no pending plan. -/
def sessOsc : Session :=
  { state := .controlling, recoveryIndex := 0, recoveryTrigger := .planningR,
    lastValidPlan := 0, lastValidControl := 0, lastOscillationReset := 0,
    oscillationPoseX := 0, oscillationPoseY := 0, planningRetries := 0,
    newGlobalPlan := false, runPlanner := true }

/-- Cycle input at time 10 (so the oscillation timeout of 3 s has long
expired), robot still at the anchor, fresh costmap, goal not reached, and the
controller answering with the velocity (1, 0, 0). -/
def inpOsc : CycleInput :=
  { now := 10, posX := 0, posY := 0, costmapCurrent := true, setPlanOk := true,
    goalReached := false, computeVel := some (1, 0, 0) }

/-- Claim C1, counterexample: in a CONTROLLING cycle in which the oscillation
timeout fires, the source has no else between the oscillation branch and the
computeVelocityCommands block, so the controller is still asked for a
velocity and the non-zero command it returns is published right after the
zero - refuting the claim that compute_velocity is not invoked and that no
non-zero velocity is published in such a cycle. -/
theorem claim1_fallthrough_counterexample :
    0 < cfgOsc.oscillationTimeout ∧
    sessOsc.lastOscillationReset + cfgOsc.oscillationTimeout < inpOsc.now ∧
    sessOsc.state = .controlling ∧ inpOsc.goalReached = false ∧
    (executeCycle cfgOsc inpOsc sessOsc).velocityRequested = true ∧
    (executeCycle cfgOsc inpOsc sessOsc).published = [.zero, .vel 1 0 0] ∧
    (executeCycle cfgOsc inpOsc sessOsc).session.state = .clearing ∧
    (executeCycle cfgOsc inpOsc sessOsc).session.recoveryTrigger = .oscillationR := by
  refine ⟨by norm_num [cfgOsc], by norm_num [cfgOsc, sessOsc, inpOsc], rfl, rfl, ?_, ?_, ?_, ?_⟩ <;>
    norm_num [executeCycle, oscillationCheck, planIngest, controllingDispatch,
      velocityStep, distSq, cfgOsc, sessOsc, inpOsc]

/-- Claim C1 as amended: in a CONTROLLING cycle with a fresh costmap and no
pending plan, the goal-reached test of the local controller is consulted
first and terminates the session with SUCCEEDED without asking for a
velocity; otherwise the controller is always asked for a velocity - also
when the oscillation timeout fires. When the timeout fires, zero velocity is
published and the machine moves to CLEARING with trigger OSCILLATION_R, but
the source then falls through to the controller in the same cycle, and a
velocity the controller returns is published as well. -/
theorem claim1_goal_first_but_controller_still_invoked
    (cfg : Config) (inp : CycleInput) (s : Session)
    (hstate : s.state = .controlling)
    (hcur : inp.costmapCurrent = true)
    (hplan : s.newGlobalPlan = false) :
    (inp.goalReached = true →
      (executeCycle cfg inp s).done = some .succeeded ∧
      (executeCycle cfg inp s).velocityRequested = false) ∧
    (inp.goalReached = false →
      (executeCycle cfg inp s).velocityRequested = true) ∧
    (inp.goalReached = false →
      0 < cfg.oscillationTimeout →
      (oscillationCheck cfg inp s).lastOscillationReset + cfg.oscillationTimeout < inp.now →
      VelCmd.zero ∈ (executeCycle cfg inp s).published ∧
      ∀ vx vy wz, inp.computeVel = some (vx, vy, wz) →
        VelCmd.vel vx vy wz ∈ (executeCycle cfg inp s).published ∧
        (executeCycle cfg inp s).session.state = .clearing ∧
        (executeCycle cfg inp s).session.recoveryTrigger = .oscillationR) := by
  have hs1 : (oscillationCheck cfg inp s).state = .controlling := by
    rw [oscillationCheck_state]; exact hstate
  rw [executeCycle_eq_dispatch cfg inp s hcur hplan]
  simp only [hs1]
  refine ⟨?_, ?_, ?_⟩
  · intro hgr
    simp [controllingDispatch, hgr]
  · intro hgr
    simp only [controllingDispatch, hgr, Bool.false_eq_true, if_false]
    split <;> rfl
  · intro hgr ht hosc
    simp only [controllingDispatch, hgr, Bool.false_eq_true, if_false, if_pos (And.intro ht hosc)]
    refine ⟨List.mem_cons_self _ _, ?_⟩
    intro vx vy wz hv
    simp [velocityStep, hv]

/-- Cycle input for the claim C1 witness: the controller reports the goal
reached. -/
def inpReached : CycleInput :=
  { now := 10, posX := 0, posY := 0, costmapCurrent := true, setPlanOk := true,
    goalReached := true, computeVel := none }

/-- Witness for claim C1: the amended theorem applied at a concrete
goal-reached cycle - the session ends with SUCCEEDED and the controller is
not asked for a velocity. -/
theorem claim1_witness :
    sessOsc.state = .controlling ∧ inpReached.costmapCurrent = true ∧
    sessOsc.newGlobalPlan = false ∧
    (executeCycle cfgOsc inpReached sessOsc).done = some .succeeded ∧
    (executeCycle cfgOsc inpReached sessOsc).velocityRequested = false := by
  have h := claim1_goal_first_but_controller_still_invoked cfgOsc inpReached sessOsc rfl rfl rfl
  exact ⟨rfl, rfl, rfl, (h.1 rfl).1, (h.1 rfl).2⟩

/-- Session for the claim C4 counterexample: recovery index 1 left over from
an oscillation-triggered recovery. -/
def sessStale : Session :=
  { state := .controlling, recoveryIndex := 1, recoveryTrigger := .oscillationR,
    lastValidPlan := 0, lastValidControl := 0, lastOscillationReset := 0,
    oscillationPoseX := 0, oscillationPoseY := 0, planningRetries := 0,
    newGlobalPlan := false, runPlanner := true }

/-- Cycle input for the claim C4 counterexample: the robot has moved 10 m
from the oscillation anchor and the controller costmap is stale. -/
def inpStale : CycleInput :=
  { now := 10, posX := 10, posY := 0, costmapCurrent := false, setPlanOk := true,
    goalReached := false, computeVel := none }

/-- Claim C4, counterexample: the oscillation displacement check of
executeCycle runs before the isCurrent() safety gate, so a stale-costmap
cycle in which the robot has displaced beyond oscillation_distance with
recovery_trigger OSCILLATION_R resets recovery_index to 0 - the cycle does
not leave recovery_index unchanged as the claim states, although it does
publish only zero and ends without a dispatch. -/
theorem claim4_index_change_counterexample :
    inpStale.costmapCurrent = false ∧
    sessStale.recoveryIndex = 1 ∧
    (executeCycle cfgOsc inpStale sessStale).session.recoveryIndex = 0 ∧
    (executeCycle cfgOsc inpStale sessStale).published = [.zero] ∧
    (executeCycle cfgOsc inpStale sessStale).done = none := by
  refine ⟨rfl, rfl, ?_, ?_, ?_⟩ <;>
    norm_num [executeCycle, oscillationCheck, distSq, cfgOsc, sessStale, inpStale]

/-- Claim C4 as amended: a cycle with a stale controller costmap publishes
exactly one zero velocity and ends immediately - no plan is handed to the
controller, no velocity is requested, no state dispatch runs, and the state,
trigger, plan flag and run flag are unchanged; the recovery index is also
unchanged except that the oscillation displacement step, which precedes the
staleness gate in the source, may have reset it to 0 when the previous
trigger was OSCILLATION_R and the robot had displaced far enough. -/
theorem claim4_stale_costmap_safety (cfg : Config) (inp : CycleInput) (s : Session)
    (hcur : inp.costmapCurrent = false) :
    (executeCycle cfg inp s).published = [.zero] ∧
    (executeCycle cfg inp s).done = none ∧
    (executeCycle cfg inp s).velocityRequested = false ∧
    (executeCycle cfg inp s).planHandedToController = false ∧
    (executeCycle cfg inp s).dispatched = false ∧
    (executeCycle cfg inp s).session.state = s.state ∧
    (executeCycle cfg inp s).session.recoveryTrigger = s.recoveryTrigger ∧
    (executeCycle cfg inp s).session.newGlobalPlan = s.newGlobalPlan ∧
    (executeCycle cfg inp s).session.runPlanner = s.runPlanner ∧
    ((executeCycle cfg inp s).session.recoveryIndex = s.recoveryIndex ∨
     ((executeCycle cfg inp s).session.recoveryIndex = 0 ∧
      s.recoveryTrigger = .oscillationR)) := by
  have he : executeCycle cfg inp s =
      { session := oscillationCheck cfg inp s, published := [.zero], done := none,
        velocityRequested := false, planHandedToController := false,
        dispatched := false, recoveryRan := false } := by
    simp [executeCycle, hcur]
  rw [he]
  exact ⟨rfl, rfl, rfl, rfl, rfl, oscillationCheck_state cfg inp s,
    oscillationCheck_trigger cfg inp s, oscillationCheck_newGlobalPlan cfg inp s,
    oscillationCheck_runPlanner cfg inp s, oscillationCheck_recoveryIndex cfg inp s⟩

/-- Witness for claim C4: the amended theorem applied at the concrete stale
cycle starting from the session with trigger PLANNING_R. -/
theorem claim4_witness :
    inpStale.costmapCurrent = false ∧
    (executeCycle cfgOsc inpStale sessOsc).published = [.zero] ∧
    (executeCycle cfgOsc inpStale sessOsc).done = none ∧
    (executeCycle cfgOsc inpStale sessOsc).session.state = sessOsc.state ∧
    (executeCycle cfgOsc inpStale sessOsc).session.recoveryTrigger = sessOsc.recoveryTrigger := by
  have h := claim4_stale_costmap_safety cfgOsc inpStale sessOsc rfl
  exact ⟨rfl, h.1, h.2.1, h.2.2.2.2.2.1, h.2.2.2.2.2.2.1⟩

/-- The velocity block leaves the recovery index unchanged or zeroes it. -/
theorem velocityStep_recoveryIndex (cfg : Config) (inp : CycleInput) (s : Session) :
    (velocityStep cfg inp s).1.recoveryIndex = 0 ∨
    (velocityStep cfg inp s).1.recoveryIndex = s.recoveryIndex := by
  cases hcv : inp.computeVel with
  | none =>
    simp only [velocityStep, hcv]
    split <;> right <;> rfl
  | some v =>
    obtain ⟨vx, vy, wz⟩ := v
    simp only [velocityStep, hcv]
    split <;> simp

/-- The CONTROLLING dispatch either succeeds with the recovery index reset to
0, or ends the cycle undone with the recovery index unchanged or zeroed. -/
theorem controllingDispatch_cases (cfg : Config) (inp : CycleInput) (s : Session) :
    ((controllingDispatch cfg inp s).done = some .succeeded ∧
     (controllingDispatch cfg inp s).session.recoveryIndex = 0) ∨
    ((controllingDispatch cfg inp s).done = none ∧
     ((controllingDispatch cfg inp s).session.recoveryIndex = 0 ∨
      (controllingDispatch cfg inp s).session.recoveryIndex = s.recoveryIndex)) := by
  unfold controllingDispatch
  split
  · exact Or.inl ⟨rfl, rfl⟩
  · split
    · exact Or.inr ⟨rfl, velocityStep_recoveryIndex cfg inp _⟩
    · exact Or.inr ⟨rfl, velocityStep_recoveryIndex cfg inp _⟩

/-- The CLEARING dispatch either runs the behavior at the cursor - possible
only when the cursor is strictly below the chain length - and increments the
cursor, or aborts with the cursor reset to 0. -/
theorem clearingDispatch_cases (cfg : Config) (inp : CycleInput) (s : Session) :
    ((clearingDispatch cfg inp s).session.recoveryIndex = s.recoveryIndex + 1 ∧
     s.recoveryIndex < cfg.numRecoveryBehaviors ∧
     (clearingDispatch cfg inp s).done = none) ∨
    ((clearingDispatch cfg inp s).session.recoveryIndex = 0 ∧
     (clearingDispatch cfg inp s).done = some (.aborted (abortReason s.recoveryTrigger))) := by
  unfold clearingDispatch
  split
  · rename_i h
    exact Or.inl ⟨rfl, h.2, rfl⟩
  · exact Or.inr ⟨rfl, rfl⟩

/-- The plan ingest either continues the cycle with the state untouched and
the recovery index unchanged or zeroed, or aborts with the index reset to 0. -/
theorem planIngest_cases (inp : CycleInput) (s : Session) :
    ((planIngest inp s).done = none ∧
     (planIngest inp s).session.state = s.state ∧
     ((planIngest inp s).session.recoveryIndex = 0 ∨
      (planIngest inp s).session.recoveryIndex = s.recoveryIndex)) ∨
    ((planIngest inp s).session.recoveryIndex = 0 ∧
     (planIngest inp s).done =
       some (.aborted "Failed to pass global plan to the controller.")) := by
  unfold planIngest
  split
  · split
    · refine Or.inl ⟨rfl, rfl, ?_⟩
      by_cases h : s.recoveryTrigger = .planningR <;> simp [h]
    · exact Or.inr ⟨rfl, rfl⟩
  · exact Or.inl ⟨rfl, rfl, Or.inr rfl⟩

/-- With a fresh costmap, executeCycle is the oscillation check, the plan
ingest, and on a live cycle the state dispatch. -/
theorem executeCycle_eq_ingest_dispatch (cfg : Config) (inp : CycleInput) (s : Session)
    (hcur : inp.costmapCurrent = true) :
    executeCycle cfg inp s =
      (let s1 := oscillationCheck cfg inp s
       let ing := planIngest inp s1
       match ing.done with
       | some o =>
         { session := ing.session, published := ing.published, done := some o,
           velocityRequested := false, planHandedToController := ing.handed,
           dispatched := false, recoveryRan := false }
       | none =>
         let d :=
           match ing.session.state with
           | .planning => planningDispatch ing.session
           | .controlling => controllingDispatch cfg inp ing.session
           | .clearing => clearingDispatch cfg inp ing.session
         { session := d.session, published := ing.published ++ d.published,
           done := d.done, velocityRequested := d.velocityRequested,
           planHandedToController := ing.handed, dispatched := true,
           recoveryRan := d.recoveryRan }) := by
  simp only [executeCycle, hcur]
  simp

/-- Claim C5: one control cycle preserves the bound recovery_index at most
the chain length (the index only ever grows by the single increment performed
in CLEARING below the chain length), every SUCCEEDED outcome leaves the index
restored to 0, and any growth of the index happens only from CLEARING with
the index strictly below the chain length. Together with recovery_index = 0
at construction and at goal acceptance this is the claimed invariant of every
reachable state. -/
theorem claim5_recovery_index_invariant (cfg : Config) (inp : CycleInput) (s : Session)
    (hle : s.recoveryIndex ≤ cfg.numRecoveryBehaviors) :
    (executeCycle cfg inp s).session.recoveryIndex ≤ cfg.numRecoveryBehaviors ∧
    ((executeCycle cfg inp s).done = some .succeeded →
      (executeCycle cfg inp s).session.recoveryIndex = 0) ∧
    (s.recoveryIndex < (executeCycle cfg inp s).session.recoveryIndex →
      s.state = .clearing ∧ s.recoveryIndex < cfg.numRecoveryBehaviors ∧
      (executeCycle cfg inp s).session.recoveryIndex = s.recoveryIndex + 1) := by
  have hoscle : (oscillationCheck cfg inp s).recoveryIndex ≤ s.recoveryIndex := by
    rcases oscillationCheck_recoveryIndex cfg inp s with h | ⟨h, _⟩ <;> omega
  cases hcur : inp.costmapCurrent with
  | false =>
    have he : executeCycle cfg inp s =
        { session := oscillationCheck cfg inp s, published := [.zero], done := none,
          velocityRequested := false, planHandedToController := false,
          dispatched := false, recoveryRan := false } := by
      simp [executeCycle, hcur]
    rw [he]
    dsimp only
    refine ⟨?_, ?_, ?_⟩
    · omega
    · intro hc; cases hc
    · intro hlt; exact absurd hlt (by omega)
  | true =>
    rw [executeCycle_eq_ingest_dispatch cfg inp s hcur]
    dsimp only
    rcases planIngest_cases inp (oscillationCheck cfg inp s) with
      ⟨hdone, hstate, hidx⟩ | ⟨hidx, hdone⟩
    · rw [hdone]
      dsimp only
      have hing_le :
          (planIngest inp (oscillationCheck cfg inp s)).session.recoveryIndex
            ≤ s.recoveryIndex := by
        rcases hidx with h | h <;> omega
      rw [hstate, oscillationCheck_state cfg inp s]
      cases hst : s.state with
      | planning =>
        dsimp only [planningDispatch]
        refine ⟨?_, ?_, ?_⟩
        · omega
        · intro hc; cases hc
        · intro hlt; exact absurd hlt (by omega)
      | controlling =>
        dsimp only
        rcases controllingDispatch_cases cfg inp
            (planIngest inp (oscillationCheck cfg inp s)).session with
          ⟨hd, hz⟩ | ⟨hd, hz⟩
        · refine ⟨?_, ?_, ?_⟩
          · omega
          · exact fun _ => hz
          · intro hlt; exact absurd hlt (by omega)
        · refine ⟨?_, ?_, ?_⟩
          · rcases hz with h | h <;> omega
          · intro hc; rw [hd] at hc; cases hc
          · intro hlt
            rcases hz with h | h <;> exact absurd hlt (by omega)
      | clearing =>
        dsimp only
        rcases clearingDispatch_cases cfg inp
            (planIngest inp (oscillationCheck cfg inp s)).session with
          ⟨hinc, hlt2, hd⟩ | ⟨hz, hd⟩
        · refine ⟨?_, ?_, ?_⟩
          · omega
          · intro hc; rw [hd] at hc; cases hc
          · intro hgt
            exact ⟨rfl, by omega, by omega⟩
        · refine ⟨?_, ?_, ?_⟩
          · omega
          · exact fun _ => hz
          · intro hlt; exact absurd hlt (by omega)
    · rw [hdone]
      dsimp only
      refine ⟨?_, ?_, ?_⟩
      · omega
      · intro hc; simp at hc
      · intro hlt; exact absurd hlt (by omega)

/-- Witness for claim C5: the invariant applied at the concrete goal-reached
cycle. -/
theorem claim5_witness :
    sessOsc.recoveryIndex ≤ cfgOsc.numRecoveryBehaviors ∧
    (executeCycle cfgOsc inpReached sessOsc).session.recoveryIndex
        ≤ cfgOsc.numRecoveryBehaviors ∧
    ((executeCycle cfgOsc inpReached sessOsc).done = some .succeeded →
      (executeCycle cfgOsc inpReached sessOsc).session.recoveryIndex = 0) := by
  have hle : sessOsc.recoveryIndex ≤ cfgOsc.numRecoveryBehaviors := by decide
  have h := claim5_recovery_index_invariant cfgOsc inpReached sessOsc hle
  exact ⟨hle, h.1, h.2.1⟩

/-- Session with a pending new plan, trigger PLANNING_R and a nonzero
recovery index, for the claim C8 witness. -/
def sessIngest : Session :=
  { state := .controlling, recoveryIndex := 1, recoveryTrigger := .planningR,
    lastValidPlan := 0, lastValidControl := 0, lastOscillationReset := 0,
    oscillationPoseX := 0, oscillationPoseY := 0, planningRetries := 0,
    newGlobalPlan := true, runPlanner := true }

/-- Session with trigger CONTROLLING_R and a nonzero recovery index, for the
claim C8 witness. -/
def sessCtrlR : Session :=
  { state := .controlling, recoveryIndex := 1, recoveryTrigger := .controllingR,
    lastValidPlan := 0, lastValidControl := 0, lastOscillationReset := 0,
    oscillationPoseX := 0, oscillationPoseY := 0, planningRetries := 0,
    newGlobalPlan := false, runPlanner := true }

/-- Claim C8: recovery progress is rewound when the failure mode that
triggered it resolves - handing a new plan to the local controller while
recovery_trigger is PLANNING_R resets recovery_index to 0 (the plan-ingest
step of executeCycle), and a valid velocity from the controller while
recovery_trigger is CONTROLLING_R resets recovery_index to 0 (the velocity
block of the CONTROLLING dispatch). -/
theorem claim8_recovery_rewind_on_progress :
    (∀ (inp : CycleInput) (s : Session),
      s.newGlobalPlan = true → inp.setPlanOk = true →
      s.recoveryTrigger = .planningR →
      (planIngest inp s).session.recoveryIndex = 0) ∧
    (∀ (cfg : Config) (inp : CycleInput) (s : Session) (vx vy wz : ℚ),
      inp.computeVel = some (vx, vy, wz) → s.recoveryTrigger = .controllingR →
      (velocityStep cfg inp s).1.recoveryIndex = 0) := by
  constructor
  · intro inp s hplan hok htr
    simp [planIngest, hplan, hok, htr]
  · intro cfg inp s vx vy wz hv htr
    simp [velocityStep, hv, htr]

/-- Witness for claim C8: both rewinds applied at concrete sessions with
recovery index 1. -/
theorem claim8_witness :
    sessIngest.newGlobalPlan = true ∧ inpOsc.setPlanOk = true ∧
    sessIngest.recoveryTrigger = .planningR ∧
    (planIngest inpOsc sessIngest).session.recoveryIndex = 0 ∧
    inpOsc.computeVel = some (1, 0, 0) ∧
    sessCtrlR.recoveryTrigger = .controllingR ∧
    (velocityStep cfgOsc inpOsc sessCtrlR).1.recoveryIndex = 0 := by
  have h := claim8_recovery_rewind_on_progress
  exact ⟨rfl, rfl, rfl, h.1 inpOsc sessIngest rfl rfl rfl, rfl, rfl,
    h.2 cfgOsc inpOsc sessCtrlR 1 0 0 rfl rfl⟩

/-- Configuration for the claim C2 counterexample: max_planning_retries = -2. -/
def cfgRetry : Config :=
  { plannerFrequency := 0, plannerPatience := 5, controllerPatience := 15,
    maxPlanningRetries := -2, oscillationTimeout := 0, oscillationDistance := 1/2,
    recoveryBehaviorEnabled := true, numRecoveryBehaviors := 2 }

/-- Session in PLANNING whose uint32 retry counter is one increment below the wrap. -/
def sessRetry : Session :=
  { state := .planning, recoveryIndex := 0, recoveryTrigger := .planningR,
    lastValidPlan := 0, lastValidControl := 0, lastOscillationReset := 0,
    oscillationPoseX := 0, oscillationPoseY := 0, planningRetries := 4294967294,
    newGlobalPlan := false, runPlanner := true }

/-- Claim C2, counterexample: with max_planning_retries = -2 the comparison
planning_retries > uint32_t(max_planning_retries) compares against
2^32 - 2, so at planning_retries = 2^32 - 1 the retry count alone - the
patience window has not expired - drives the transition to CLEARING with
trigger PLANNING_R, clears the run flag and publishes zero. This refutes the
claim that for every negative max_planning_retries the retry count never
causes the transition; only -1 casts to the unreachable bound 2^32 - 1. -/
theorem claim2_negative_retries_counterexample :
    cfgRetry.maxPlanningRetries < 0 ∧
    ¬(sessRetry.lastValidPlan + cfgRetry.plannerPatience < (1 : ℚ)) ∧
    (planThreadIteration cfgRetry 1 false sessRetry).1.state = .clearing ∧
    (planThreadIteration cfgRetry 1 false sessRetry).1.runPlanner = false ∧
    (planThreadIteration cfgRetry 1 false sessRetry).1.recoveryTrigger = .planningR ∧
    (planThreadIteration cfgRetry 1 false sessRetry).2 = [.zero] := by
  refine ⟨by norm_num [cfgRetry], by norm_num [cfgRetry, sessRetry], ?_, ?_, ?_, ?_⟩ <;>
    norm_num [planThreadIteration, toUint32, cfgRetry, sessRetry]

/-- Claim C2 as amended: when a planning attempt fails in state PLANNING with
the run flag still set, the retry counter is incremented modulo 2^32, and the
worker enters CLEARING with trigger PLANNING_R, clears the run flag and
publishes zero exactly when the patience window has expired or the
incremented counter exceeds uint32(max_planning_retries); for
max_planning_retries at least 0 (within int32 range) that cast is the value
itself, and only max_planning_retries = -1 casts to 2^32 - 1, which the
counter can never exceed - other negative values leave a finite, albeit
astronomically large, retry bound of 2^32 + max_planning_retries. -/
theorem claim2_plan_failure_transition (cfg : Config) (now : ℚ) (s : Session)
    (hstate : s.state = .planning) (hrun : s.runPlanner = true) :
    (planThreadIteration cfg now false s).1.planningRetries
        = (s.planningRetries + 1) % 4294967296 ∧
    (((planThreadIteration cfg now false s).1.state = .clearing ∧
      (planThreadIteration cfg now false s).1.runPlanner = false ∧
      (planThreadIteration cfg now false s).1.recoveryTrigger = .planningR ∧
      (planThreadIteration cfg now false s).2 = [.zero]) ↔
     (s.lastValidPlan + cfg.plannerPatience < now ∨
      toUint32 cfg.maxPlanningRetries < (s.planningRetries + 1) % 4294967296)) ∧
    (0 ≤ cfg.maxPlanningRetries → cfg.maxPlanningRetries < 2147483648 →
      (toUint32 cfg.maxPlanningRetries < (s.planningRetries + 1) % 4294967296 ↔
       cfg.maxPlanningRetries.toNat < (s.planningRetries + 1) % 4294967296)) ∧
    (cfg.maxPlanningRetries = -1 →
      ¬(toUint32 cfg.maxPlanningRetries < (s.planningRetries + 1) % 4294967296)) := by
  refine ⟨?_, ?_, ?_, ?_⟩
  · simp only [planThreadIteration, hstate, hrun]
    norm_num
    split <;> rfl
  · simp only [planThreadIteration, hstate, hrun]
    norm_num
    by_cases hcond : s.lastValidPlan + cfg.plannerPatience < now ∨
        toUint32 cfg.maxPlanningRetries < (s.planningRetries + 1) % 4294967296
    · rw [if_pos hcond]
      simp [hcond]
    · rw [if_neg hcond]
      simp only [hcond, iff_false]
      intro hcontra
      cases hcontra.1
  · intro h1 h2
    unfold toUint32
    omega
  · intro h
    rw [h]
    unfold toUint32
    have := Nat.mod_lt (s.planningRetries + 1) (by omega : 0 < 4294967296)
    omega

/-- Session in PLANNING with a fresh retry counter, for the claim C2 witness. -/
def sessPlan : Session :=
  { state := .planning, recoveryIndex := 0, recoveryTrigger := .planningR,
    lastValidPlan := 0, lastValidControl := 0, lastOscillationReset := 0,
    oscillationPoseX := 0, oscillationPoseY := 0, planningRetries := 0,
    newGlobalPlan := false, runPlanner := true }

/-- Witness for claim C2: the amended theorem applied at a failed attempt at
time 10 with patience 5, where the patience disjunct drives the transition. -/
theorem claim2_witness :
    sessPlan.state = .planning ∧ sessPlan.runPlanner = true ∧
    (planThreadIteration cfgOsc 10 false sessPlan).1.planningRetries
        = (sessPlan.planningRetries + 1) % 4294967296 ∧
    ((planThreadIteration cfgOsc 10 false sessPlan).1.state = .clearing ∧
     (planThreadIteration cfgOsc 10 false sessPlan).1.runPlanner = false ∧
     (planThreadIteration cfgOsc 10 false sessPlan).1.recoveryTrigger = .planningR ∧
     (planThreadIteration cfgOsc 10 false sessPlan).2 = [.zero]) := by
  have h := claim2_plan_failure_transition cfgOsc 10 sessPlan rfl rfl
  refine ⟨rfl, rfl, h.1, ?_⟩
  exact h.2.1.mpr (Or.inl (by norm_num [sessPlan, cfgOsc]))

/-- Decomposition of a successful findSome?: the list splits at the first
element accepted by the function, and everything before it is refused. -/
theorem findSomeSplit {α β : Type} (f : α → Option β) :
    ∀ (l : List α) (b : β), l.findSome? f = some b →
      ∃ l1 a l2, l = l1 ++ a :: l2 ∧ f a = some b ∧ ∀ x ∈ l1, f x = none := by
  intro l
  induction l with
  | nil => intro b h; simp at h
  | cons a as ih =>
    intro b h
    rw [List.findSome?_cons] at h
    cases hfa : f a with
    | some c =>
      rw [hfa] at h
      exact ⟨[], a, as, by simp, by rw [hfa]; exact h, by simp⟩
    | none =>
      rw [hfa] at h
      obtain ⟨l1, x, l2, he, hfx, hall⟩ := ih b h
      refine ⟨a :: l1, x, l2, by simp [he], hfx, ?_⟩
      intro y hy
      rcases List.mem_cons.mp hy with rfl | hy2
      · exact hfa
      · exact hall y hy2

/-- Shape of the attempts generated within one layer: the layer value, the
offsets as exact multiples of the step, the not-strictly-inside condition of
the skip test, and the sign multipliers. -/
theorem mem_layerAttempts {inc : ℚ} {m : ℕ} {a : SearchAttempt}
    (h : a ∈ layerAttempts inc m) :
    a.layer = (m : ℚ) * inc ∧
    (∃ i : ℕ, i ≤ m ∧ a.xOff = (i : ℚ) * inc) ∧
    (∃ k : ℕ, k ≤ m ∧ a.yOff = (k : ℚ) * inc) ∧
    ¬(a.xOff < a.layer - searchEps ∧ a.yOff < a.layer - searchEps) ∧
    (a.xMult = -1 ∨ a.xMult = 1) ∧ (a.yMult = -1 ∨ a.yMult = 1) := by
  simp only [layerAttempts, List.mem_flatMap, List.mem_range] at h
  obtain ⟨k, hk, i, hi, hin⟩ := h
  by_cases hskip : (i : ℚ) * inc < (m : ℚ) * inc - searchEps ∧
      (k : ℚ) * inc < (m : ℚ) * inc - searchEps
  · rw [if_pos hskip] at hin
    simp at hin
  · rw [if_neg hskip] at hin
    simp only [List.mem_flatMap] at hin
    obtain ⟨ym, hym, hin2⟩ := hin
    by_cases hq : (k : ℚ) * inc < searchEps ∧ ym < -1 + searchEps
    · rw [if_pos hq] at hin2
      simp at hin2
    · rw [if_neg hq] at hin2
      simp only [List.mem_filterMap] at hin2
      obtain ⟨xm, hxm, heq⟩ := hin2
      by_cases hr : (i : ℚ) * inc < searchEps ∧ xm < -1 + searchEps
      · rw [if_pos hr] at heq
        cases heq
      · rw [if_neg hr] at heq
        injection heq with heq
        subst heq
        refine ⟨rfl, ⟨i, by omega, rfl⟩, ⟨k, by omega, rfl⟩, hskip, ?_, ?_⟩
        · simpa using hxm
        · simpa using hym

/-- The search step is positive for positive resolution and tolerance. -/
theorem searchIncrement_pos {res tol : ℚ} (hres : 0 < res) (htol : 0 < tol) :
    0 < searchIncrement res tol := by
  unfold searchIncrement
  split
  · exact htol
  · linarith

/-- Bounds satisfied by every attempt of the outward search: layers stay
within the tolerance, offsets stay within their layer, offsets strictly
inside the layer on both axes (beyond the 1e-9 slack) never appear, and the
sign multipliers are exactly -1 and 1. -/
theorem mem_searchAttempts {res tol : ℚ} {a : SearchAttempt}
    (hres : 0 < res) (htol : 0 < tol) (h : a ∈ searchAttempts res tol) :
    0 < a.layer ∧ a.layer ≤ tol ∧
    0 ≤ a.xOff ∧ a.xOff ≤ a.layer ∧ 0 ≤ a.yOff ∧ a.yOff ≤ a.layer ∧
    ¬(a.xOff < a.layer - searchEps ∧ a.yOff < a.layer - searchEps) ∧
    (a.xMult = -1 ∨ a.xMult = 1) ∧ (a.yMult = -1 ∨ a.yMult = 1) := by
  have hinc : 0 < searchIncrement res tol := searchIncrement_pos hres htol
  simp only [searchAttempts, List.mem_flatMap, List.mem_range] at h
  obtain ⟨j, hj, hmem⟩ := h
  obtain ⟨hlayer, ⟨i, hi, hx⟩, ⟨k, hk, hy⟩, hskip, hxm, hym⟩ := mem_layerAttempts hmem
  have hmpos : (0 : ℚ) < ((j + 1 : ℕ) : ℚ) := by positivity
  have hlay_pos : 0 < a.layer := by
    rw [hlayer]; exact mul_pos hmpos hinc
  have hfloor_le : ((j + 1 : ℕ) : ℚ) ≤ tol / searchIncrement res tol := by
    have h1 : ((j + 1 : ℕ) : ℤ) ≤ ⌊tol / searchIncrement res tol⌋ := by omega
    have h2 := Int.le_floor.mp h1
    exact_mod_cast h2
  have hlay_le : a.layer ≤ tol := by
    rw [hlayer]
    calc ((j + 1 : ℕ) : ℚ) * searchIncrement res tol
        ≤ (tol / searchIncrement res tol) * searchIncrement res tol :=
          mul_le_mul_of_nonneg_right hfloor_le hinc.le
      _ = tol := div_mul_cancel₀ tol (ne_of_gt hinc)
  refine ⟨hlay_pos, hlay_le, ?_, ?_, ?_, ?_, hskip, hxm, hym⟩
  · rw [hx]; positivity
  · rw [hx, hlayer]
    exact mul_le_mul_of_nonneg_right (by exact_mod_cast hi) hinc.le
  · rw [hy]; positivity
  · rw [hy, hlayer]
    exact mul_le_mul_of_nonneg_right (by exact_mod_cast hk) hinc.le

/-- Claim C6, counterexample: for resolution 1 and tolerance 2 the source
step is min(3 * resolution, tolerance) = 2, not the claimed
max(3 * resolution, tolerance) = 3; with the claimed step even the first
layer (3) would exceed the tolerance and nothing would be searched, while
the source does search. -/
theorem claim6_increment_counterexample :
    searchIncrement 1 2 = 2 ∧
    specSearchIncrement 1 2 = 3 ∧
    searchIncrement 1 2 ≠ specSearchIncrement 1 2 ∧
    searchAttempts 1 2 ≠ [] ∧
    ¬(specSearchIncrement 1 2 ≤ 2) := by
  have h1 : searchIncrement 1 2 = 2 := by norm_num [searchIncrement]
  have h2 : specSearchIncrement 1 2 = 3 := by
    unfold specSearchIncrement
    rw [max_eq_left (by norm_num)]
    norm_num
  refine ⟨h1, h2, by rw [h1, h2]; norm_num, ?_, by rw [h2]; norm_num⟩
  have hmem1 : (⟨((1 : ℕ) : ℚ) * 2, ((1 : ℕ) : ℚ) * 2, ((1 : ℕ) : ℚ) * 2, 1, 1⟩ : SearchAttempt)
      ∈ layerAttempts 2 1 := by
    unfold layerAttempts
    simp only [List.mem_flatMap, List.mem_range]
    refine ⟨1, by norm_num, 1, by norm_num, ?_⟩
    rw [if_neg (by intro hcon; norm_num [searchEps] at hcon)]
    simp only [List.mem_flatMap]
    refine ⟨1, by norm_num, ?_⟩
    rw [if_neg (by intro hcon; norm_num [searchEps] at hcon)]
    simp only [List.mem_filterMap]
    refine ⟨1, by norm_num, ?_⟩
    rw [if_neg (by intro hcon; norm_num [searchEps] at hcon)]
  have hmem : (⟨((1 : ℕ) : ℚ) * 2, ((1 : ℕ) : ℚ) * 2, ((1 : ℕ) : ℚ) * 2, 1, 1⟩ : SearchAttempt)
      ∈ searchAttempts 1 2 := by
    simp only [searchAttempts, h1, List.mem_flatMap, List.mem_range]
    have hq : ((2 : ℚ) / 2) = 1 := by norm_num
    refine ⟨0, ?_, hmem1⟩
    rw [hq]
    norm_num
  exact List.ne_nil_of_mem hmem

/-- Claim C6 as amended: the outward grid search of the plan service uses a
step of min(3 * resolution, tolerance) - the tolerance only when it is
positive and smaller than three cells, never the maximum; every attempt
explores offsets only up to the requested tolerance (layers at most the
tolerance, offsets within their layer) in both signs, skips offset pairs
strictly inside the already-searched outer layer (beyond the 1e-9 slack),
and the result, when any, is the plan of the first attempt in loop order for
which the external planner returns a nonempty plan. -/
theorem claim6_search_structure (res tol : ℚ) (hres : 0 < res) (htol : 0 < tol) :
    searchIncrement res tol = min (res * 3) tol ∧
    (∀ a ∈ searchAttempts res tol,
      0 < a.layer ∧ a.layer ≤ tol ∧
      0 ≤ a.xOff ∧ a.xOff ≤ a.layer ∧ 0 ≤ a.yOff ∧ a.yOff ≤ a.layer ∧
      ¬(a.xOff < a.layer - searchEps ∧ a.yOff < a.layer - searchEps) ∧
      (a.xMult = -1 ∨ a.xMult = 1) ∧ (a.yMult = -1 ∨ a.yMult = 1)) ∧
    (∀ (oracle : ℚ × ℚ → Option (List (ℚ × ℚ))) (goal g : ℚ × ℚ) (pl : List (ℚ × ℚ)),
      planServiceSearch oracle goal res tol = some (g, pl) →
      oracle g = some pl ∧ pl ≠ [] ∧
      ∃ l1 a l2, searchAttempts res tol = l1 ++ a :: l2 ∧ g = attemptGoal goal a ∧
        ∀ b ∈ l1, oracle (attemptGoal goal b) = none ∨
          oracle (attemptGoal goal b) = some []) := by
  refine ⟨?_, ?_, ?_⟩
  · unfold searchIncrement
    rcases le_or_lt (res * 3) tol with h | h
    · rw [if_neg (by intro hc; linarith [hc.2]), min_eq_left h]
    · rw [if_pos ⟨htol, h⟩, min_eq_right h.le]
  · intro a ha
    exact mem_searchAttempts hres htol ha
  · intro oracle goal g pl h
    unfold planServiceSearch at h
    obtain ⟨l1, a, l2, hsplit, hfa, hall⟩ := findSomeSplit _ _ _ h
    cases ho : oracle (attemptGoal goal a) with
    | none => rw [ho] at hfa; cases hfa
    | some q =>
      rw [ho] at hfa
      dsimp only at hfa
      by_cases hemp : q.isEmpty = true
      · rw [if_pos hemp] at hfa; cases hfa
      · rw [if_neg hemp] at hfa
        injection hfa with hfa2
        have hg : attemptGoal goal a = g := congrArg Prod.fst hfa2
        have hq : q = pl := congrArg Prod.snd hfa2
        refine ⟨?_, ?_, l1, a, l2, hsplit, hg.symm, ?_⟩
        · rw [← hg, ho, hq]
        · rw [← hq]
          simpa using hemp
        · intro b hb
          have hfb := hall b hb
          cases hob : oracle (attemptGoal goal b) with
          | none => exact Or.inl rfl
          | some qb =>
            rw [hob] at hfb
            dsimp only at hfb
            by_cases hembq : qb.isEmpty = true
            · right
              have hqb : qb = [] := by simpa using hembq
              rw [hqb]
            · rw [if_neg hembq] at hfb
              cases hfb

/-- Witness for claim C6: the search-structure theorem applied at resolution
1 and tolerance 2. -/
theorem claim6_witness :
    (0 : ℚ) < 1 ∧ (0 : ℚ) < 2 ∧
    searchIncrement 1 2 = min ((1 : ℚ) * 3) 2 ∧
    (∀ a ∈ searchAttempts 1 2, 0 < a.layer ∧ a.layer ≤ 2) := by
  have h := claim6_search_structure 1 2 (by norm_num) (by norm_num)
  exact ⟨by norm_num, by norm_num, h.1,
    fun a ha => ⟨(h.2.1 a ha).1, (h.2.1 a ha).2.1⟩⟩
